import Mathlib

/-!
Verification of the Subformer API client core (request/response pipeline and
job polling) against its natural-language specification.

The embedding models the JavaScript values flowing through the client as the
inductive type `JsVal` (a JSON-like tagged union extended with `undef` for the
JavaScript undefined value and `date` for Date objects produced by the date
normalization pass).  The pipeline functions are transcribed from
`src/client.ts` and the error taxonomy from `src/errors.ts`.
-/

set_option maxHeartbeats 1000000

namespace Subformer

/-! ## JavaScript value model -/

mutual

/-- A JavaScript runtime value as seen by the client core: the JSON scalars,
arrays and objects, plus `undef` (the undefined value) and `date s` (a Date
object constructed by `new Date(s)` during date normalization). -/
inductive JsVal where
  | null
  | undef
  | bool (b : Bool)
  | num (n : Int)
  | str (s : String)
  | date (s : String)
  | arr (items : JsArr)
  | obj (fields : JsObj)

/-- A JavaScript array of values. -/
inductive JsArr where
  | nil
  | cons (head : JsVal) (tail : JsArr)

/-- A JavaScript object: an ordered list of key/value fields.  Objects decoded
from JSON have pairwise distinct keys. -/
inductive JsObj where
  | nil
  | cons (key : String) (value : JsVal) (rest : JsObj)

end

/-- Look up a key in an object, as JavaScript property lookup does (keys of a
decoded JSON object are distinct, so first match equals last match). -/
def JsObj.lookup : JsObj → String → Option JsVal
  | JsObj.nil, _ => none
  | JsObj.cons k v rest, key => if k == key then some v else JsObj.lookup rest key

/-- JavaScript property access `v[key]`: throws a TypeError on null or
undefined (modelled as `Except.error`), yields the field value on objects
(undefined when the key is absent), and yields undefined on other values for
the non-index keys the client reads. -/
def jsGetProp : JsVal → String → Except String JsVal
  | JsVal.null, key => Except.error ("TypeError: cannot read properties of null reading " ++ key)
  | JsVal.undef, key => Except.error ("TypeError: cannot read properties of undefined reading " ++ key)
  | JsVal.obj fields, key => Except.ok ((JsObj.lookup fields key).getD JsVal.undef)
  | _, _ => Except.ok JsVal.undef

/-! ## Date normalization (client.ts, transformDates) -/

/-- Test from client.ts line 182: the regular expression
caret backslash-d 4 dash backslash-d 2 dash backslash-d 2 letter T, i.e. the
string starts with four digits, a dash, two digits, a dash, two digits and
the letter T. -/
def isoDatePrefixMatch (s : String) : Bool :=
  match s.toList with
  | y1 :: y2 :: y3 :: y4 :: d1 :: m1 :: m2 :: d2 :: a1 :: a2 :: t :: _ =>
    y1.isDigit && y2.isDigit && y3.isDigit && y4.isDigit && d1 == '-' &&
    m1.isDigit && m2.isDigit && d2 == '-' && a1.isDigit && a2.isDigit && t == 'T'
  | _ => false

/-- The endsWith test on strings, computed over the character lists (the
builtin String.endsWith has the same value but is compiled opaquely). -/
def strEndsWith (s suffix : String) : Bool :=
  List.isSuffixOf suffix.toList s.toList

/-- Key test from client.ts line 181: the field name ends in At or On. -/
def isDateKeyName (key : String) : Bool :=
  strEndsWith key "At" || strEndsWith key "On"

mutual

/-- Transcription of the private transformDates method of client.ts
(lines 167 to 193): null and undefined are returned as given, arrays are
mapped elementwise, objects are rebuilt field by field, and every other
value (string, number, boolean) falls through unchanged. -/
def transformDates : JsVal → JsVal
  | JsVal.null => JsVal.null
  | JsVal.undef => JsVal.undef
  | JsVal.bool b => JsVal.bool b
  | JsVal.num n => JsVal.num n
  | JsVal.str s => JsVal.str s
  | JsVal.date s => JsVal.date s
  | JsVal.arr items => JsVal.arr (transformDatesArr items)
  | JsVal.obj fields => JsVal.obj (transformDatesObj fields)

/-- Elementwise recursion of transformDates over an array. -/
def transformDatesArr : JsArr → JsArr
  | JsArr.nil => JsArr.nil
  | JsArr.cons x xs => JsArr.cons (transformDates x) (transformDatesArr xs)

/-- Field rule of transformDates: a string value under a key ending in At or
On whose value starts with the ISO date prefix becomes a Date; every other
field value is recursed into. -/
def transformDatesObj : JsObj → JsObj
  | JsObj.nil => JsObj.nil
  | JsObj.cons key value rest =>
    match value with
    | JsVal.str s =>
      if isDateKeyName key && isoDatePrefixMatch s then
        JsObj.cons key (JsVal.date s) (transformDatesObj rest)
      else
        JsObj.cons key (transformDates value) (transformDatesObj rest)
    | _ => JsObj.cons key (transformDates value) (transformDatesObj rest)

end

/-! ## Error taxonomy (errors.ts) -/

/-- The observable state of a constructed error object: its runtime name tag
and the four data properties of the SubformerError hierarchy.  Fields hold
`JsVal` because the JavaScript code can flow non-string values into them. -/
structure ErrorValue where
  name : String
  message : JsVal
  statusCode : JsVal
  code : JsVal
  data : JsVal

/-- The optional options bag of the SubformerError constructor.  A key the
caller did not put in the bag is modelled by `JsVal.undef`. -/
structure ErrorOptions where
  statusCode : JsVal
  code : JsVal
  data : JsVal

/-- JavaScript default-parameter semantics: the declared default is used when
the argument is omitted or is the undefined value. -/
def defaultParam (arg : Option JsVal) (dflt : JsVal) : JsVal :=
  match arg with
  | none => dflt
  | some JsVal.undef => dflt
  | some v => v

/-- The SubformerError constructor (errors.ts lines 6 to 25).  The message
parameter has no declared default; an omitted argument is the undefined
value.  The real Error base class would stringify the stored message; no
claim depends on that coercion, so the value is kept as passed. -/
def SubformerError (message : Option JsVal) (options : Option ErrorOptions) : ErrorValue :=
  ⟨"SubformerError",
   message.getD JsVal.undef,
   (options.map ErrorOptions.statusCode).getD JsVal.undef,
   (options.map ErrorOptions.code).getD JsVal.undef,
   (options.map ErrorOptions.data).getD JsVal.undef⟩

/-- A subclass constructor ends by overwriting the name tag set by the
superclass constructor. -/
def subclassName (n : String) (e : ErrorValue) : ErrorValue :=
  ⟨n, e.message, e.statusCode, e.code, e.data⟩

/-- The AuthenticationError constructor (errors.ts lines 28 to 33): declared
default message, fixed statusCode 401 and code UNAUTHORIZED. -/
def AuthenticationError (message : Option JsVal) : ErrorValue :=
  subclassName "AuthenticationError"
    (SubformerError (some (defaultParam message (JsVal.str "Invalid or missing API key")))
      (some ⟨JsVal.num 401, JsVal.str "UNAUTHORIZED", JsVal.undef⟩))

/-- The NotFoundError constructor (errors.ts lines 36 to 41): declared
default message, fixed statusCode 404 and code NOT_FOUND. -/
def NotFoundError (message : Option JsVal) : ErrorValue :=
  subclassName "NotFoundError"
    (SubformerError (some (defaultParam message (JsVal.str "Resource not found")))
      (some ⟨JsVal.num 404, JsVal.str "NOT_FOUND", JsVal.undef⟩))

/-- The RateLimitError constructor (errors.ts lines 44 to 49): declared
default message, fixed statusCode 429 and code RATE_LIMIT_EXCEEDED. -/
def RateLimitError (message : Option JsVal) : ErrorValue :=
  subclassName "RateLimitError"
    (SubformerError (some (defaultParam message (JsVal.str "Rate limit exceeded")))
      (some ⟨JsVal.num 429, JsVal.str "RATE_LIMIT_EXCEEDED", JsVal.undef⟩))

/-- The ValidationError constructor (errors.ts lines 52 to 57): the message
parameter has NO declared default; fixed statusCode 400 and code
BAD_REQUEST; the data parameter is forwarded into the options bag. -/
def ValidationError (message : Option JsVal) (data : Option JsVal) : ErrorValue :=
  subclassName "ValidationError"
    (SubformerError (some (message.getD JsVal.undef))
      (some ⟨JsVal.num 400, JsVal.str "BAD_REQUEST", data.getD JsVal.undef⟩))

/-- Observation used to state the default-message claim: the stored message
is a non-empty string. -/
def nonEmptyStringMessage (e : ErrorValue) : Bool :=
  match e.message with
  | JsVal.str s => !(s == "")
  | _ => false

/-! ## Error classification (client.ts, handleError) -/

/-- An HTTP response as the pipeline observes it: numeric status, the
standard reason phrase, and the result of calling the json decoding method
on the body (an `Except.error` models the decoder throwing, carrying the
thrown message). -/
structure HttpResponse where
  status : Nat
  statusText : String
  body : Except String JsVal

/-- The ok flag of a fetch Response: status in the range 200 to 299. -/
def responseOk (resp : HttpResponse) : Bool :=
  decide (200 ≤ resp.status) && decide (resp.status ≤ 299)

/-- The message, code and data locals computed by handleError (client.ts
lines 136 to 147). -/
structure ErrorBodyFields where
  message : JsVal
  code : JsVal
  data : JsVal

/-- Transcription of the try block of handleError: decode the body, read the
message field with a fallback to the reason phrase when the field is null or
undefined, and read the code and data fields.  If the decoder or the first
property access throws, the catch sets the message to the reason phrase and
leaves code and data undefined. -/
def errorFields (resp : HttpResponse) : ErrorBodyFields :=
  match resp.body with
  | Except.error _ => ⟨JsVal.str resp.statusText, JsVal.undef, JsVal.undef⟩
  | Except.ok json =>
    match jsGetProp json "message" with
    | Except.error _ => ⟨JsVal.str resp.statusText, JsVal.undef, JsVal.undef⟩
    | Except.ok m =>
      -- Later accesses cannot throw here: json is neither null nor undefined.
      ⟨match m with
        | JsVal.null => JsVal.str resp.statusText
        | JsVal.undef => JsVal.str resp.statusText
        | v => v,
       (jsGetProp json "code").toOption.getD JsVal.undef,
       (jsGetProp json "data").toOption.getD JsVal.undef⟩

/-- Transcription of the switch of handleError (client.ts lines 149 to 164):
classification is strictly by numeric status code. -/
def handleError (resp : HttpResponse) : ErrorValue :=
  let f := errorFields resp
  match resp.status with
  | 401 => AuthenticationError (some f.message)
  | 404 => NotFoundError (some f.message)
  | 429 => RateLimitError (some f.message)
  | 400 => ValidationError (some f.message) (some f.data)
  | _ => SubformerError (some f.message) (some ⟨JsVal.num resp.status, f.code, f.data⟩)

/-! ## The request pipeline (client.ts, request) -/

/-- What the awaited fetch call did, as observed by the surrounding
try/catch.  `settled` means the response arrived before the timeout timer
fired.  `rejected n m` means fetch rejected with an Error object whose name
is n and message is m; the timeout timer firing aborts the call, which
rejects it with an Error named AbortError.  `rejectedNonError` means the
rejection value was not an Error instance. -/
inductive TransportEvent where
  | settled (resp : HttpResponse)
  | rejected (errName errMessage : String)
  | rejectedNonError

/-- The value a pipeline call produces: a decoded and normalized success
value, or a thrown error from the taxonomy. -/
inductive RequestResult where
  | success (value : JsVal)
  | failure (e : ErrorValue)

/-- Result of one pipeline call together with the state of the per-call
timeout timer after the call finished (`timerPending = true` would mean a
leaked timer). -/
structure RequestOutcome where
  result : RequestResult
  timerPending : Bool

/-- Transcription of the private request method of client.ts (lines 77 to
133), the execute operation of the specification.  The timer is cleared
right after fetch settles (line 109) and again in the catch block (line
122), so every branch below reports no pending timer.  Errors thrown by
handleError are SubformerError instances, which the catch rethrows
unchanged.  A json decoding failure on the success path is an Error caught
by the catch and wrapped with its own message. -/
def request (ev : TransportEvent) : RequestOutcome :=
  match ev with
  | TransportEvent.settled resp =>
    if !(responseOk resp) then
      ⟨RequestResult.failure (handleError resp), false⟩
    else if resp.status == 204 then
      ⟨RequestResult.success JsVal.undef, false⟩
    else
      match resp.body with
      | Except.ok d => ⟨RequestResult.success (transformDates d), false⟩
      | Except.error m => ⟨RequestResult.failure (SubformerError (some (JsVal.str m)) none), false⟩
  | TransportEvent.rejected errName errMessage =>
    if errName == "AbortError" then
      ⟨RequestResult.failure (SubformerError (some (JsVal.str "Request timeout")) none), false⟩
    else
      ⟨RequestResult.failure (SubformerError (some (JsVal.str errMessage)) none), false⟩
  | TransportEvent.rejectedNonError =>
    ⟨RequestResult.failure (SubformerError (some (JsVal.str "Unknown error")) none), false⟩

/-! ## Job polling (client.ts, waitForJob) -/

/-- The job state enumeration from types.ts. -/
inductive JobState where
  | queued
  | active
  | completed
  | failed
  | cancelled
deriving BEq, DecidableEq

/-- A job as waitForJob observes it: the loop reads only the state field and
returns the whole record untouched; `rest` stands for all other fields. -/
structure Job where
  id : String
  state : JobState
  rest : JsVal

/-- The terminal-state test of client.ts lines 294 to 298: state is
completed, failed or cancelled. -/
def terminalCheck (s : JobState) : Bool :=
  s == JobState.completed || s == JobState.failed || s == JobState.cancelled

/-- An exception value propagating out of waitForJob: either a member of the
SubformerError taxonomy (everything the getJob pipeline throws) or a bare
Error object carrying only a message (what the waitForJob timeout throws via
new Error at client.ts line 303). -/
inductive ThrownError where
  | subformer (e : ErrorValue)
  | plain (message : String)

/-- Result of running waitForJob with a bounded number of polls available:
the returned job, a thrown exception, or fuel exhaustion (the real loop is
unbounded); each constructor records how many getJob calls were made. -/
inductive WaitResult where
  | done (job : Job) (calls : Nat)
  | threw (e : ThrownError) (calls : Nat)
  | outOfFuel (calls : Nat)

/-- Observation for stating claims: the run ended by throwing a taxonomy
member. -/
def WaitResult.threwTaxonomyMember : WaitResult → Bool
  | WaitResult.threw (ThrownError.subformer _) _ => true
  | _ => false

/-- The caller options of waitForJob (types.ts): seconds between polls and
an overall budget in seconds.  JavaScript numbers are modelled as `Int`. -/
structure WaitForJobOptions where
  pollInterval : Option Int
  timeout : Option Int

/-- Line 288 of client.ts: the ternary
timeout-option, question mark, timeout-option times 1000, colon, undefined.
A zero (falsy) timeout option is discarded. -/
def waitTimeoutMs : Option Int → Option Int
  | some t => if t != 0 then some (t * 1000) else none
  | none => none

/-- Line 302 of client.ts: the guard
timeout, and-and, now minus startTime greater than timeout.  An undefined
timeout is falsy and a zero timeout would be falsy as well. -/
def timeoutFires : Option Int → Int → Bool
  | none, _ => false
  | some t, elapsed => t != 0 && decide (t < elapsed)

/-- Stringification of a JavaScript number-or-undefined inside a template
literal. -/
def jsNumberToString : Option Int → String
  | none => "undefined"
  | some t => toString t

/-- The timeout message built at client.ts lines 303 to 305 from the job id
and the raw timeout option in seconds. -/
def waitTimeoutMessage (jobId : String) (timeoutOption : Option Int) : String :=
  "Job " ++ jobId ++ " did not complete within " ++ jsNumberToString timeoutOption ++ " seconds"

/-- The while loop of waitForJob (client.ts lines 291 to 309), driven by an
abstract environment: `getJob n` is the outcome of the n-th fetch of the job
and `now n` is the clock reading at the timeout guard after that fetch.  The
sleep between polls only consumes wall-clock time, which the abstract clock
absorbs, so pollInterval does not appear.  `fuel` bounds the number of
iterations modelled. -/
def waitForJobLoop (jobId : String) (timeoutMs timeoutOption : Option Int)
    (getJob : Nat → Except ThrownError Job) (now : Nat → Int) (startTime : Int) :
    Nat → Nat → WaitResult
  | 0, n => WaitResult.outOfFuel n
  | Nat.succ fuel, n =>
    match getJob n with
    | Except.error e => WaitResult.threw e (n + 1)
    | Except.ok job =>
      if terminalCheck job.state then
        WaitResult.done job (n + 1)
      else if timeoutFires timeoutMs (now n - startTime) then
        WaitResult.threw (ThrownError.plain (waitTimeoutMessage jobId timeoutOption)) (n + 1)
      else
        waitForJobLoop jobId timeoutMs timeoutOption getJob now startTime fuel (n + 1)

/-- Transcription of waitForJob (client.ts lines 286 to 310): compute the
millisecond budget by the truthiness ternary, record the start time, and run
the polling loop. -/
def waitForJob (jobId : String) (options : WaitForJobOptions)
    (getJob : Nat → Except ThrownError Job) (now : Nat → Int) (startTime : Int)
    (fuel : Nat) : WaitResult :=
  waitForJobLoop jobId (waitTimeoutMs options.timeout) options.timeout getJob now startTime fuel 0

/-! ## The dub operation (client.ts, dub) -/

/-- Caller options of dub (types.ts). -/
structure DubOptions where
  source : String
  url : String
  language : String
  disableWatermark : Option Bool

/-- A possibly-absent boolean option as the JavaScript value placed in an
object literal. -/
def jsOfOptionBool : Option Bool → JsVal
  | some b => JsVal.bool b
  | none => JsVal.undef

/-- The wire body built by dub (client.ts lines 213 to 220): the source
option is sent under the key type and the language option under the key
toLanguage. -/
def dubBody (options : DubOptions) : JsVal :=
  JsVal.obj
    (JsObj.cons "type" (JsVal.str options.source)
    (JsObj.cons "url" (JsVal.str options.url)
    (JsObj.cons "toLanguage" (JsVal.str options.language)
    (JsObj.cons "disableWatermark" (jsOfOptionBool options.disableWatermark) JsObj.nil))))

/-- Transcription of dub (client.ts lines 212 to 222) over an abstract
`send` standing for the successful result of the request method: issue POST
to the path /dub with the wire body and return the job field of the
response envelope. -/
def dub (options : DubOptions) (send : String → String → JsVal → JsVal) : Except String JsVal :=
  jsGetProp (send "POST" "/dub" (dubBody options)) "job"

/-! ## Specification-side date walk relation -/

mutual

/-- Modelled from the wording of the specification, section 4.2 step 6: the
relation between a decoded value and the result of the recursive walk.
Scalars, null and undefined are unchanged (strings stay strings); arrays
are walked elementwise; records are walked field by field. -/
inductive DateWalk : JsVal → JsVal → Prop where
  | null : DateWalk JsVal.null JsVal.null
  | undef : DateWalk JsVal.undef JsVal.undef
  | bool (b : Bool) : DateWalk (JsVal.bool b) (JsVal.bool b)
  | num (n : Int) : DateWalk (JsVal.num n) (JsVal.num n)
  | str (s : String) : DateWalk (JsVal.str s) (JsVal.str s)
  | date (s : String) : DateWalk (JsVal.date s) (JsVal.date s)
  | arr (xs ys : JsArr) : DateWalkArr xs ys → DateWalk (JsVal.arr xs) (JsVal.arr ys)
  | obj (fs gs : JsObj) : DateWalkObj fs gs → DateWalk (JsVal.obj fs) (JsVal.obj gs)

/-- Elementwise date walk over array elements. -/
inductive DateWalkArr : JsArr → JsArr → Prop where
  | nil : DateWalkArr JsArr.nil JsArr.nil
  | cons (x y : JsVal) (xs ys : JsArr) :
      DateWalk x y → DateWalkArr xs ys → DateWalkArr (JsArr.cons x xs) (JsArr.cons y ys)

/-- Field rule of the specification: a field whose name ends in At or On and
whose string value starts with the ISO date prefix becomes a native date
value; every field not matching both patterns keeps its key and is walked
recursively (so scalar values, strings included, are unchanged). -/
inductive DateWalkObj : JsObj → JsObj → Prop where
  | nil : DateWalkObj JsObj.nil JsObj.nil
  | consDate (key s : String) (rest rest' : JsObj) :
      (isDateKeyName key && isoDatePrefixMatch s) = true →
      DateWalkObj rest rest' →
      DateWalkObj (JsObj.cons key (JsVal.str s) rest) (JsObj.cons key (JsVal.date s) rest')
  | consKeep (key : String) (value w : JsVal) (rest rest' : JsObj) :
      (∀ s, value = JsVal.str s → (isDateKeyName key && isoDatePrefixMatch s) = false) →
      DateWalk value w →
      DateWalkObj rest rest' →
      DateWalkObj (JsObj.cons key value rest) (JsObj.cons key w rest')

end

/-! ## Sample values for concrete witnesses -/

/-- A sample job carrying a given state. -/
def sampleJob (st : JobState) : Job :=
  ⟨"job-1", st, JsVal.null⟩

/-- A poll sequence that goes queued, active, completed. -/
def sampleJobSeq : Nat → Job
  | 0 => sampleJob JobState.queued
  | 1 => sampleJob JobState.active
  | _ => sampleJob JobState.completed

/-- A sample decoded body holding one date-like field and one plain field. -/
def sampleBody : JsVal :=
  JsVal.obj
    (JsObj.cons "createdAt" (JsVal.str "2024-01-02T03:04:05.000Z")
    (JsObj.cons "name" (JsVal.str "2024-01-02T03:04:05.000Z") JsObj.nil))

/-! ## Helper lemmas -/

/-- On any status outside the four classified codes, handleError builds the
generic SubformerError from the actual status and the decoded body fields. -/
theorem handleError_generic (resp : HttpResponse)
    (h1 : resp.status ≠ 401) (h2 : resp.status ≠ 404)
    (h3 : resp.status ≠ 429) (h4 : resp.status ≠ 400) :
    handleError resp = SubformerError (some (errorFields resp).message)
      (some ⟨JsVal.num resp.status, (errorFields resp).code, (errorFields resp).data⟩) := by
  unfold handleError
  split
  · exact absurd (by assumption) h1
  · exact absurd (by assumption) h2
  · exact absurd (by assumption) h3
  · exact absurd (by assumption) h4
  · rfl

mutual

/-- The implemented date transform satisfies the specification-side walk
relation, for every value. -/
theorem transform_dateWalk : (v : JsVal) → DateWalk v (transformDates v)
  | JsVal.null => DateWalk.null
  | JsVal.undef => DateWalk.undef
  | JsVal.bool b => DateWalk.bool b
  | JsVal.num n => DateWalk.num n
  | JsVal.str s => DateWalk.str s
  | JsVal.date s => DateWalk.date s
  | JsVal.arr items => DateWalk.arr items (transformDatesArr items) (transformArr_dateWalk items)
  | JsVal.obj fields => DateWalk.obj fields (transformDatesObj fields) (transformObj_dateWalk fields)

/-- Array case of the walk correspondence. -/
theorem transformArr_dateWalk : (xs : JsArr) → DateWalkArr xs (transformDatesArr xs)
  | JsArr.nil => DateWalkArr.nil
  | JsArr.cons x xs =>
    DateWalkArr.cons x (transformDates x) xs (transformDatesArr xs)
      (transform_dateWalk x) (transformArr_dateWalk xs)

/-- Object case of the walk correspondence. -/
theorem transformObj_dateWalk : (fs : JsObj) → DateWalkObj fs (transformDatesObj fs)
  | JsObj.nil => DateWalkObj.nil
  | JsObj.cons key value rest => by
    have ihrest := transformObj_dateWalk rest
    cases value with
    | str s =>
      cases hc : (isDateKeyName key && isoDatePrefixMatch s) with
      | true =>
        have heq : transformDatesObj (JsObj.cons key (JsVal.str s) rest)
            = JsObj.cons key (JsVal.date s) (transformDatesObj rest) := by
          simp [transformDatesObj, hc]
        rw [heq]
        exact DateWalkObj.consDate key s rest (transformDatesObj rest) hc ihrest
      | false =>
        have heq : transformDatesObj (JsObj.cons key (JsVal.str s) rest)
            = JsObj.cons key (transformDates (JsVal.str s)) (transformDatesObj rest) := by
          simp [transformDatesObj, hc]
        rw [heq]
        exact DateWalkObj.consKeep key (JsVal.str s) (transformDates (JsVal.str s)) rest
          (transformDatesObj rest)
          (fun s' hs' => by cases hs'; exact hc)
          (transform_dateWalk (JsVal.str s)) ihrest
    | null =>
      exact DateWalkObj.consKeep key JsVal.null (transformDates JsVal.null) rest
        (transformDatesObj rest) (fun s hs => JsVal.noConfusion hs)
        (transform_dateWalk JsVal.null) ihrest
    | undef =>
      exact DateWalkObj.consKeep key JsVal.undef (transformDates JsVal.undef) rest
        (transformDatesObj rest) (fun s hs => JsVal.noConfusion hs)
        (transform_dateWalk JsVal.undef) ihrest
    | bool b =>
      exact DateWalkObj.consKeep key (JsVal.bool b) (transformDates (JsVal.bool b)) rest
        (transformDatesObj rest) (fun s hs => JsVal.noConfusion hs)
        (transform_dateWalk (JsVal.bool b)) ihrest
    | num n =>
      exact DateWalkObj.consKeep key (JsVal.num n) (transformDates (JsVal.num n)) rest
        (transformDatesObj rest) (fun s hs => JsVal.noConfusion hs)
        (transform_dateWalk (JsVal.num n)) ihrest
    | date s =>
      exact DateWalkObj.consKeep key (JsVal.date s) (transformDates (JsVal.date s)) rest
        (transformDatesObj rest) (fun s hs => JsVal.noConfusion hs)
        (transform_dateWalk (JsVal.date s)) ihrest
    | arr items =>
      exact DateWalkObj.consKeep key (JsVal.arr items) (transformDates (JsVal.arr items)) rest
        (transformDatesObj rest) (fun s hs => JsVal.noConfusion hs)
        (transform_dateWalk (JsVal.arr items)) ihrest
    | obj fields =>
      exact DateWalkObj.consKeep key (JsVal.obj fields) (transformDates (JsVal.obj fields)) rest
        (transformDatesObj rest) (fun s hs => JsVal.noConfusion hs)
        (transform_dateWalk (JsVal.obj fields)) ihrest

end

/-- Running the polling loop when every poll before the first terminal one
is non-terminal and never trips the budget guard: the loop returns the first
terminal job after exactly one call per poll. -/
theorem waitForJobLoop_done (jobId : String) (tMs tOpt : Option Int)
    (jobs : Nat → Job) (now : Nat → Int) (startTime : Int) :
    ∀ (k fuel n : Nat),
      (∀ i, i < k → terminalCheck (jobs (n + i)).state = false) →
      terminalCheck (jobs (n + k)).state = true →
      (∀ i, i < k → timeoutFires tMs (now (n + i) - startTime) = false) →
      k < fuel →
      waitForJobLoop jobId tMs tOpt (fun m => Except.ok (jobs m)) now startTime fuel n =
        WaitResult.done (jobs (n + k)) (n + k + 1) := by
  intro k
  induction k with
  | zero =>
    intro fuel n _ hterm _ hfuel
    obtain ⟨f, rfl⟩ : ∃ f, fuel = f + 1 := ⟨fuel - 1, by omega⟩
    simp only [Nat.add_zero] at hterm
    simp [waitForJobLoop, hterm]
  | succ k ih =>
    intro fuel n hpre hterm hfire hfuel
    obtain ⟨f, rfl⟩ : ∃ f, fuel = f + 1 := ⟨fuel - 1, by omega⟩
    have h0 : terminalCheck (jobs n).state = false := by
      have := hpre 0 (Nat.succ_pos k)
      simpa using this
    have hf0 : timeoutFires tMs (now n - startTime) = false := by
      have := hfire 0 (Nat.succ_pos k)
      simpa using this
    have hrec := ih f (n + 1)
      (fun i hi => by
        have hh := hpre (i + 1) (by omega)
        have e : n + (i + 1) = n + 1 + i := by omega
        rwa [e] at hh)
      (by
        have hh := hterm
        have e : n + (k + 1) = n + 1 + k := by omega
        rwa [e] at hh)
      (fun i hi => by
        have hh := hfire (i + 1) (by omega)
        have e : n + (i + 1) = n + 1 + i := by omega
        rwa [e] at hh)
      (by omega)
    rw [show n + (k + 1) = n + 1 + k from by omega]
    simp only [waitForJobLoop, h0, hf0]
    simpa using hrec

/-- Running the polling loop when no terminal state shows up through the
poll at which the budget guard first trips: the loop throws the plain
timeout error after that poll. -/
theorem waitForJobLoop_budget_exceeded (jobId : String) (tMs tOpt : Option Int)
    (jobs : Nat → Job) (now : Nat → Int) (startTime : Int) :
    ∀ (k fuel n : Nat),
      (∀ i, i ≤ k → terminalCheck (jobs (n + i)).state = false) →
      (∀ i, i < k → timeoutFires tMs (now (n + i) - startTime) = false) →
      timeoutFires tMs (now (n + k) - startTime) = true →
      k < fuel →
      waitForJobLoop jobId tMs tOpt (fun m => Except.ok (jobs m)) now startTime fuel n =
        WaitResult.threw (ThrownError.plain (waitTimeoutMessage jobId tOpt)) (n + k + 1) := by
  intro k
  induction k with
  | zero =>
    intro fuel n hnt _ hfire hfuel
    obtain ⟨f, rfl⟩ : ∃ f, fuel = f + 1 := ⟨fuel - 1, by omega⟩
    have h0 : terminalCheck (jobs n).state = false := by
      have := hnt 0 (Nat.le_refl 0)
      simpa using this
    simp only [Nat.add_zero] at hfire
    simp [waitForJobLoop, h0, hfire]
  | succ k ih =>
    intro fuel n hnt hnofire hfire hfuel
    obtain ⟨f, rfl⟩ : ∃ f, fuel = f + 1 := ⟨fuel - 1, by omega⟩
    have h0 : terminalCheck (jobs n).state = false := by
      have := hnt 0 (by omega)
      simpa using this
    have hf0 : timeoutFires tMs (now n - startTime) = false := by
      have := hnofire 0 (Nat.succ_pos k)
      simpa using this
    have hrec := ih f (n + 1)
      (fun i hi => by
        have hh := hnt (i + 1) (by omega)
        have e : n + (i + 1) = n + 1 + i := by omega
        rwa [e] at hh)
      (fun i hi => by
        have hh := hnofire (i + 1) (by omega)
        have e : n + (i + 1) = n + 1 + i := by omega
        rwa [e] at hh)
      (by
        have hh := hfire
        have e : n + (k + 1) = n + 1 + k := by omega
        rwa [e] at hh)
      (by omega)
    rw [show n + (k + 1) = n + 1 + k from by omega]
    simp only [waitForJobLoop, h0, hf0]
    simpa using hrec

/-- With no millisecond budget the loop never reads the raw timeout option
(which only feeds the error message), so that argument is irrelevant. -/
theorem waitForJobLoop_no_budget (jobId : String) (t1 t2 : Option Int)
    (getJob : Nat → Except ThrownError Job) (now : Nat → Int) (startTime : Int) :
    ∀ (fuel n : Nat),
      waitForJobLoop jobId none t1 getJob now startTime fuel n =
      waitForJobLoop jobId none t2 getJob now startTime fuel n := by
  intro fuel
  induction fuel with
  | zero => intro n; rfl
  | succ f ih =>
    intro n
    simp only [waitForJobLoop]
    cases getJob n with
    | error e => rfl
    | ok job =>
      by_cases h : terminalCheck job.state
      · simp [h]
      · simp [h, timeoutFires, ih]

/-! ## Claim theorems -/

/-- C1: for every response with status 401, 404, 429 or 400, execute throws
exactly the corresponding taxonomy member with the fixed statusCode and code
of the table in section 4.1, whatever the body holds; the ValidationError
additionally carries the data field extracted from the body. -/
theorem request_error_classification (resp : HttpResponse) :
    (resp.status = 401 → ∃ e, (request (TransportEvent.settled resp)).result
        = RequestResult.failure e ∧ e.name = "AuthenticationError"
        ∧ e.statusCode = JsVal.num 401 ∧ e.code = JsVal.str "UNAUTHORIZED"
        ∧ e.data = JsVal.undef) ∧
    (resp.status = 404 → ∃ e, (request (TransportEvent.settled resp)).result
        = RequestResult.failure e ∧ e.name = "NotFoundError"
        ∧ e.statusCode = JsVal.num 404 ∧ e.code = JsVal.str "NOT_FOUND"
        ∧ e.data = JsVal.undef) ∧
    (resp.status = 429 → ∃ e, (request (TransportEvent.settled resp)).result
        = RequestResult.failure e ∧ e.name = "RateLimitError"
        ∧ e.statusCode = JsVal.num 429 ∧ e.code = JsVal.str "RATE_LIMIT_EXCEEDED"
        ∧ e.data = JsVal.undef) ∧
    (resp.status = 400 → ∃ e, (request (TransportEvent.settled resp)).result
        = RequestResult.failure e ∧ e.name = "ValidationError"
        ∧ e.statusCode = JsVal.num 400 ∧ e.code = JsVal.str "BAD_REQUEST"
        ∧ e.data = (errorFields resp).data
        ∧ (∀ fs, resp.body = Except.ok (JsVal.obj fs) →
            e.data = (JsObj.lookup fs "data").getD JsVal.undef)) := by
  obtain ⟨s, st, b⟩ := resp
  refine ⟨fun h => ?_, fun h => ?_, fun h => ?_, fun h => ?_⟩
  · replace h : s = 401 := h
    subst h
    exact ⟨_, rfl, rfl, rfl, rfl, rfl⟩
  · replace h : s = 404 := h
    subst h
    exact ⟨_, rfl, rfl, rfl, rfl, rfl⟩
  · replace h : s = 429 := h
    subst h
    exact ⟨_, rfl, rfl, rfl, rfl, rfl⟩
  · replace h : s = 400 := h
    subst h
    refine ⟨_, rfl, rfl, rfl, rfl, rfl, ?_⟩
    intro fs hb
    replace hb : b = Except.ok (JsVal.obj fs) := hb
    subst hb
    rfl

/-- C1 witness: a 401 with an undecodable body is classified as an
AuthenticationError with the fixed statusCode and code. -/
theorem request_error_classification_witness :
    ∃ e, (request (TransportEvent.settled
        ⟨401, "Unauthorized", Except.error "Unexpected token"⟩)).result
      = RequestResult.failure e ∧ e.name = "AuthenticationError"
      ∧ e.statusCode = JsVal.num 401 ∧ e.code = JsVal.str "UNAUTHORIZED"
      ∧ e.data = JsVal.undef :=
  (request_error_classification ⟨401, "Unauthorized", Except.error "Unexpected token"⟩).1 rfl

/-- C2: on every non-success status other than 401, 404, 429 and 400,
execute throws the generic SubformerError whose statusCode is the actual
response status and whose code and data come from the decoded body,
undefined when the body does not decode. -/
theorem request_generic_error (resp : HttpResponse)
    (hok : responseOk resp = false)
    (h1 : resp.status ≠ 401) (h2 : resp.status ≠ 404)
    (h3 : resp.status ≠ 429) (h4 : resp.status ≠ 400) :
    ∃ e, (request (TransportEvent.settled resp)).result = RequestResult.failure e ∧
      e.name = "SubformerError" ∧
      e.statusCode = JsVal.num resp.status ∧
      e.code = (errorFields resp).code ∧
      e.data = (errorFields resp).data ∧
      (∀ m, resp.body = Except.error m → e.code = JsVal.undef ∧ e.data = JsVal.undef) ∧
      (∀ fs, resp.body = Except.ok (JsVal.obj fs) →
        e.code = (JsObj.lookup fs "code").getD JsVal.undef ∧
        e.data = (JsObj.lookup fs "data").getD JsVal.undef) := by
  obtain ⟨s, st, b⟩ := resp
  have he := handleError_generic ⟨s, st, b⟩ h1 h2 h3 h4
  refine ⟨handleError ⟨s, st, b⟩, ?_, ?_, ?_, ?_, ?_, ?_, ?_⟩
  · simp [request, hok]
  · rw [he]; rfl
  · rw [he]; rfl
  · rw [he]; rfl
  · rw [he]; rfl
  · intro m hb
    replace hb : b = Except.error m := hb
    subst hb
    rw [he]
    exact ⟨rfl, rfl⟩
  · intro fs hb
    replace hb : b = Except.ok (JsVal.obj fs) := hb
    subst hb
    rw [he]
    exact ⟨rfl, rfl⟩

/-- C2 witness: a 500 whose body decodes to an object with code and data
fields yields the generic error carrying status 500 and those fields. -/
theorem request_generic_error_witness :
    ∃ e, (request (TransportEvent.settled ⟨500, "Internal Server Error",
        Except.ok (JsVal.obj (JsObj.cons "code" (JsVal.str "SERVER")
          (JsObj.cons "data" (JsVal.num 7) JsObj.nil)))⟩)).result
      = RequestResult.failure e ∧
      e.name = "SubformerError" ∧
      e.statusCode = JsVal.num 500 ∧
      e.code = (errorFields ⟨500, "Internal Server Error",
        Except.ok (JsVal.obj (JsObj.cons "code" (JsVal.str "SERVER")
          (JsObj.cons "data" (JsVal.num 7) JsObj.nil)))⟩).code ∧
      e.data = (errorFields ⟨500, "Internal Server Error",
        Except.ok (JsVal.obj (JsObj.cons "code" (JsVal.str "SERVER")
          (JsObj.cons "data" (JsVal.num 7) JsObj.nil)))⟩).data ∧
      (∀ m, (Except.ok (JsVal.obj (JsObj.cons "code" (JsVal.str "SERVER")
          (JsObj.cons "data" (JsVal.num 7) JsObj.nil))) : Except String JsVal)
          = Except.error m → e.code = JsVal.undef ∧ e.data = JsVal.undef) ∧
      (∀ fs, (Except.ok (JsVal.obj (JsObj.cons "code" (JsVal.str "SERVER")
          (JsObj.cons "data" (JsVal.num 7) JsObj.nil))) : Except String JsVal)
          = Except.ok (JsVal.obj fs) →
        e.code = (JsObj.lookup fs "code").getD JsVal.undef ∧
        e.data = (JsObj.lookup fs "data").getD JsVal.undef) :=
  request_generic_error ⟨500, "Internal Server Error",
      Except.ok (JsVal.obj (JsObj.cons "code" (JsVal.str "SERVER")
        (JsObj.cons "data" (JsVal.num 7) JsObj.nil)))⟩
    rfl (by decide) (by decide) (by decide) (by decide)

/-- C3: on a successful, non-204 response the decoded value is returned
after the recursive date walk, and the implemented walk satisfies the
specification relation DateWalk on every value: date-named fields with an
ISO prefixed string become dates, the walk recurses into records and
arrays, and everything else is unchanged. -/
theorem request_decodes_and_walks_dates :
    (∀ (resp : HttpResponse) (d : JsVal), responseOk resp = true → resp.status ≠ 204 →
      resp.body = Except.ok d →
      (request (TransportEvent.settled resp)).result = RequestResult.success (transformDates d)) ∧
    (∀ v, DateWalk v (transformDates v)) := by
  constructor
  · intro resp d hok h204 hb
    obtain ⟨s, st, b⟩ := resp
    replace h204 : s ≠ 204 := h204
    replace hb : b = Except.ok d := hb
    subst hb
    have h2 : (s == 204) = false := by simpa using h204
    simp [request, hok, h2]
  · exact transform_dateWalk

/-- C3 witness: a 200 response with a body holding a createdAt field whose
value has the ISO prefix, next to a field named name with the same string
value; only the createdAt value becomes a date. -/
theorem request_decodes_and_walks_dates_witness :
    (request (TransportEvent.settled ⟨200, "OK", Except.ok sampleBody⟩)).result
      = RequestResult.success (transformDates sampleBody) ∧
    DateWalk sampleBody (transformDates sampleBody) ∧
    transformDates sampleBody = JsVal.obj
      (JsObj.cons "createdAt" (JsVal.date "2024-01-02T03:04:05.000Z")
      (JsObj.cons "name" (JsVal.str "2024-01-02T03:04:05.000Z") JsObj.nil)) :=
  ⟨request_decodes_and_walks_dates.1 ⟨200, "OK", Except.ok sampleBody⟩ sampleBody rfl
      (by decide) rfl,
   request_decodes_and_walks_dates.2 sampleBody,
   by
    have ha : isDateKeyName "createdAt" = true := rfl
    have hb : isoDatePrefixMatch "2024-01-02T03:04:05.000Z" = true := rfl
    have hc : isDateKeyName "name" = false := rfl
    simp [sampleBody, transformDates, transformDatesObj, ha, hb, hc]⟩

/-- C9: a 204 response yields the empty undefined result with the timer
cleared, whatever the body is, decodable or not. -/
theorem request_204_empty (statusText : String) (body : Except String JsVal) :
    request (TransportEvent.settled ⟨204, statusText, body⟩)
      = ⟨RequestResult.success JsVal.undef, false⟩ :=
  rfl

/-- C6: when the per-call timer fires the fetch is aborted and rejects with
an AbortError, which execute converts into the generic SubformerError whose
message is exactly the string Request timeout; and on every possible
transport event the call finishes with the timer no longer pending. -/
theorem request_timeout_and_timer_cleared :
    (∀ m, ∃ e, (request (TransportEvent.rejected "AbortError" m)).result
        = RequestResult.failure e ∧ e.name = "SubformerError"
        ∧ e.message = JsVal.str "Request timeout"
        ∧ e.statusCode = JsVal.undef ∧ e.code = JsVal.undef ∧ e.data = JsVal.undef) ∧
    (∀ ev, (request ev).timerPending = false) := by
  constructor
  · intro m
    exact ⟨_, rfl, rfl, rfl, rfl, rfl, rfl⟩
  · intro ev
    cases ev with
    | settled resp =>
      simp only [request]
      split
      · rfl
      · split
        · rfl
        · split <;> rfl
    | rejected errName errMessage =>
      simp only [request]
      split <;> rfl
    | rejectedNonError => rfl

/-- C7 counterexample: the ValidationError constructor declares no default
for its message parameter, so invoking it without a message argument yields
an undefined message, not a non-empty default string. -/
theorem validationError_no_default_message :
    nonEmptyStringMessage (ValidationError none none) = false ∧
    (ValidationError none none).message = JsVal.undef :=
  ⟨rfl, rfl⟩

/-- C7 amended: the Authentication, NotFound and RateLimit constructors
produce non-empty default messages when invoked without a message argument,
while the generic SubformerError and ValidationError constructors declare no
default and leave the message undefined. -/
theorem taxonomy_default_messages :
    (AuthenticationError none).message = JsVal.str "Invalid or missing API key" ∧
    nonEmptyStringMessage (AuthenticationError none) = true ∧
    (NotFoundError none).message = JsVal.str "Resource not found" ∧
    nonEmptyStringMessage (NotFoundError none) = true ∧
    (RateLimitError none).message = JsVal.str "Rate limit exceeded" ∧
    nonEmptyStringMessage (RateLimitError none) = true ∧
    (SubformerError none none).message = JsVal.undef ∧
    nonEmptyStringMessage (SubformerError none none) = false ∧
    (ValidationError none none).message = JsVal.undef :=
  ⟨rfl, rfl, rfl, rfl, rfl, rfl, rfl, rfl, rfl⟩

/-- C4: for every poll sequence whose first terminal state appears at poll
index k, with the budget guard never tripping earlier, waitForJob returns
that very job (no further transformation) after exactly k plus one getJob
calls; the queued, active, completed sequence is the witness below. -/
theorem waitForJob_first_terminal (jobId : String) (options : WaitForJobOptions)
    (jobs : Nat → Job) (now : Nat → Int) (startTime : Int) (fuel k : Nat)
    (hpre : ∀ i, i < k → terminalCheck (jobs i).state = false)
    (hterm : terminalCheck (jobs k).state = true)
    (hnofire : ∀ i, i < k →
      timeoutFires (waitTimeoutMs options.timeout) (now i - startTime) = false)
    (hfuel : k < fuel) :
    waitForJob jobId options (fun n => Except.ok (jobs n)) now startTime fuel =
      WaitResult.done (jobs k) (k + 1) := by
  have h := waitForJobLoop_done jobId (waitTimeoutMs options.timeout) options.timeout
    jobs now startTime k fuel 0
    (by simpa using hpre) (by simpa using hterm) (by simpa using hnofire) hfuel
  simpa [waitForJob] using h

/-- C4 witness: a job that is queued at the first poll, active at the
second and completed at the third is returned at the third poll after
exactly 3 getJob calls. -/
theorem waitForJob_first_terminal_witness :
    (∀ i, i < 2 → terminalCheck (sampleJobSeq i).state = false) ∧
    terminalCheck (sampleJobSeq 2).state = true ∧
    waitForJob "job-1" ⟨none, none⟩ (fun n => Except.ok (sampleJobSeq n)) (fun _ => 0) 0 5 =
      WaitResult.done (sampleJobSeq 2) 3 :=
  ⟨by decide, by decide,
    waitForJob_first_terminal "job-1" ⟨none, none⟩ sampleJobSeq (fun _ => 0) 0 5 2
      (by decide) (by decide) (by decide) (by decide)⟩

/-- C5 counterexample: with a 5 second timeout and a job that stays queued,
the failure thrown once the budget is exceeded is a bare Error carrying only
a message, not a member of the SubformerError taxonomy, so the claim that a
Generic-class taxonomy error is raised is false (the specification section 7
itself describes the failure as plain and distinct from the taxonomy). -/
theorem waitForJob_timeout_not_taxonomy :
    waitForJob "job-1" ⟨none, some 5⟩ (fun _ => Except.ok (sampleJob JobState.queued))
        (fun _ => 6000) 0 3 =
      WaitResult.threw (ThrownError.plain "Job job-1 did not complete within 5 seconds") 1 ∧
    WaitResult.threwTaxonomyMember
      (waitForJob "job-1" ⟨none, some 5⟩ (fun _ => Except.ok (sampleJob JobState.queued))
        (fun _ => 6000) 0 3) = false :=
  ⟨rfl, rfl⟩

/-- C5 amended: when waitForJob is given a non-zero timeout of t seconds
and no terminal state is observed through the poll at which the elapsed
clock first exceeds t times 1000 milliseconds, it fails with a plain Error
(outside the taxonomy) whose message includes the job id and the configured
timeout in seconds, after at least one getJob call. -/
theorem waitForJob_timeout_failure (jobId : String) (p : Option Int) (t : Int)
    (jobs : Nat → Job) (now : Nat → Int) (startTime : Int) (fuel n : Nat)
    (ht : t ≠ 0)
    (hnonterm : ∀ i, i ≤ n → terminalCheck (jobs i).state = false)
    (hnofire : ∀ i, i < n → timeoutFires (some (t * 1000)) (now i - startTime) = false)
    (hfire : timeoutFires (some (t * 1000)) (now n - startTime) = true)
    (hfuel : n < fuel) :
    waitForJob jobId ⟨p, some t⟩ (fun m => Except.ok (jobs m)) now startTime fuel =
      WaitResult.threw (ThrownError.plain
        ("Job " ++ jobId ++ " did not complete within " ++ toString t ++ " seconds")) (n + 1) ∧
    1 ≤ n + 1 := by
  have hms : waitTimeoutMs (some t) = some (t * 1000) := by
    simp [waitTimeoutMs, ht]
  refine ⟨?_, by omega⟩
  have h := waitForJobLoop_budget_exceeded jobId (some (t * 1000)) (some t)
    jobs now startTime n fuel 0
    (by simpa using hnonterm) (by simpa using hnofire) (by simpa using hfire) hfuel
  simp only [waitForJob, hms]
  simpa [waitTimeoutMessage, jsNumberToString] using h

/-- C5 witness for the amended claim: a stuck job with a 5 second timeout
and a clock already past the budget at the first guard fails at the first
poll with the plain message naming the job and the 5 seconds. -/
theorem waitForJob_timeout_failure_witness :
    waitForJob "job-9" ⟨none, some 5⟩ (fun _ => Except.ok (sampleJob JobState.queued))
        (fun _ => 7000) 0 4 =
      WaitResult.threw (ThrownError.plain
        ("Job " ++ "job-9" ++ " did not complete within " ++ toString (5 : Int) ++ " seconds")) 1 ∧
    1 ≤ 1 :=
  waitForJob_timeout_failure "job-9" none 5 (fun _ => sampleJob JobState.queued)
    (fun _ => 7000) 0 4 0 (by decide) (by decide) (by decide) (by decide) (by decide)

/-- C8: dub sends POST to the path /dub with the body mapping the source
option to the key type, the url unchanged, the language option to the key
toLanguage and the watermark flag to disableWatermark, and returns the
unwrapped job field of the response envelope. -/
theorem dub_request_shape (options : DubOptions) (send : String → String → JsVal → JsVal)
    (j : JsVal) (rest : JsObj)
    (hresp : send "POST" "/dub" (dubBody options) = JsVal.obj (JsObj.cons "job" j rest)) :
    dub options send = Except.ok j ∧
    ∃ fields, dubBody options = JsVal.obj fields ∧
      JsObj.lookup fields "type" = some (JsVal.str options.source) ∧
      JsObj.lookup fields "url" = some (JsVal.str options.url) ∧
      JsObj.lookup fields "toLanguage" = some (JsVal.str options.language) ∧
      JsObj.lookup fields "disableWatermark" = some (jsOfOptionBool options.disableWatermark) := by
  refine ⟨?_, _, rfl, rfl, rfl, rfl, rfl⟩
  unfold dub
  rw [hresp]
  rfl

/-- C8 witness: the documented example call, with a transport returning a
job envelope. -/
theorem dub_request_shape_witness :
    dub ⟨"youtube", "https://youtube.com/watch", "es-ES", none⟩
        (fun _ _ _ => JsVal.obj (JsObj.cons "job" (JsVal.str "the-job") JsObj.nil))
      = Except.ok (JsVal.str "the-job") ∧
    ∃ fields, dubBody ⟨"youtube", "https://youtube.com/watch", "es-ES", none⟩
        = JsVal.obj fields ∧
      JsObj.lookup fields "type" = some (JsVal.str "youtube") ∧
      JsObj.lookup fields "url" = some (JsVal.str "https://youtube.com/watch") ∧
      JsObj.lookup fields "toLanguage" = some (JsVal.str "es-ES") ∧
      JsObj.lookup fields "disableWatermark" = some (jsOfOptionBool none) :=
  dub_request_shape ⟨"youtube", "https://youtube.com/watch", "es-ES", none⟩
    (fun _ _ _ => JsVal.obj (JsObj.cons "job" (JsVal.str "the-job") JsObj.nil))
    (JsVal.str "the-job") JsObj.nil rfl

/-- C10: a timeout of zero is discarded by the truthiness ternary, so
waitForJob behaves exactly as if no timeout had been supplied, for every
environment; the millisecond budget computes to undefined and an undefined
budget never trips the guard. -/
theorem waitForJob_zero_timeout_ignored (jobId : String) (p : Option Int)
    (getJob : Nat → Except ThrownError Job) (now : Nat → Int) (startTime : Int)
    (fuel : Nat) :
    waitForJob jobId ⟨p, some 0⟩ getJob now startTime fuel =
      waitForJob jobId ⟨p, none⟩ getJob now startTime fuel ∧
    waitTimeoutMs (some 0) = none ∧
    (∀ elapsed, timeoutFires none elapsed = false) := by
  refine ⟨?_, rfl, fun _ => rfl⟩
  unfold waitForJob
  exact waitForJobLoop_no_budget jobId (some 0) none getJob now startTime fuel 0

end Subformer
